import Mathlib

/-!
Verification of the Da Vinci Canvas client core: the data-URL decode utility
(`parseDataUrl` in the file-utilities module) and the state transitions of the
application component (`checkApiKey`, `handleImageChange`, `handleGenerate`,
`currentImage`). JavaScript strings are modelled as Lean `String`, `null` as
`Option.none`, thrown exceptions as `Except.error`, and the asynchronous
results of external calls (file reader, remote generation service, host
credential check) as explicit parameters of the transition functions.
-/

/-- Semantics of JavaScript `String.prototype.split` with a single-character
separator, at the level of character lists: splits at every occurrence of the
separator, keeping empty segments (so the result always has one more element
than there are separator occurrences). -/
def splitOnChar (c : Char) : List Char → List (List Char)
  | [] => [[]]
  | x :: xs =>
    let r := splitOnChar c xs
    if x = c then [] :: r else (x :: r.headD []) :: r.tail

/-- JavaScript `s.split(sep)` for a one-character separator, on `String`. -/
def jsSplit (sep : Char) (s : String) : List String :=
  (splitOnChar sep s.data).map String.mk

/-- The record returned by `parseDataUrl`: `{ mimeType, base64Data }`. -/
structure ParsedDataUrl where
  mimeType : String
  base64Data : String
deriving Repr, DecidableEq

/-- Embedding of `parseDataUrl` from the file-utilities module:
splits on `,` and requires exactly two parts; takes element 1 of the
colon-split of part 0 (JS `parts[0].split(':')[1]`, `none` when the split has
fewer than two elements); rejects it when absent or empty (JS `!metaPart`);
the MIME type is element 0 of its semicolon-split(`metaPart.split(';')[0]`).
A thrown `Error` is modelled as `Except.error` carrying the message. -/
def parseDataUrl (dataUrl : String) : Except String ParsedDataUrl :=
  let parts := jsSplit ',' dataUrl
  if parts.length ≠ 2 then .error "Invalid Data URL format."
  else
    match (jsSplit ':' (parts.headD "")).get? 1 with
    | none => .error "Invalid Data URL: Missing metadata."
    | some metaPart =>
      if metaPart = "" then .error "Invalid Data URL: Missing metadata."
      else .ok { mimeType := (jsSplit ';' metaPart).headD ""
                 base64Data := parts.getD 1 "" }

/-- The SPEC's metadata contract, stated from its words: the metadata segment
must contain "a colon-delimited scheme followed by a semicolon-delimited MIME
type". Formalised as: splitting on the colon yields a second field (a colon is
present), and a semicolon occurs in the metadata (the MIME type is delimited by
a semicolon). This is the weakest reasonable reading; the counterexample below
contains no semicolon at all, so it is malformed under every reading. -/
def specMetadataWellFormed (meta : String) : Bool :=
  match (splitOnChar ':' meta.data).get? 1 with
  | none => false
  | some _ => meta.data.contains ';'

/-- JavaScript `s.includes(pat)`: `pat` occurs as a contiguous substring. -/
def jsIncludes (s pat : String) : Bool := decide (pat.data <:+: s.data)

/-- JavaScript `a || b` on nullable strings (`null` is `none`; the empty string
is falsy, so it also falls through to `b`). -/
def jsOrString (a b : Option String) : Option String :=
  match a with
  | some v => if v = "" then b else some v
  | none => b

/-- The React state of the `App` component: each `useState` hook is one field.
`activeStyle` is tracked by its id, the only part any claim mentions. -/
structure AppState where
  image : Option String
  generatedImage : Option String
  activeStyleId : String
  prompt : String
  isLoading : Bool
  error : Option String
  fileInfo : Option ParsedDataUrl
  isCheckingKey : Bool
  isKeyReady : Bool
deriving Repr, DecidableEq

/-- `const currentImage = generatedImage || image;` -/
def currentImage (s : AppState) : Option String :=
  jsOrString s.generatedImage s.image

/-- An uploaded file as the handlers see it: only its MIME type (`file.type`)
is inspected synchronously; its contents reach the code only through the
encoder's result, which is passed to `handleImageChange` separately. -/
structure UploadFile where
  type : String
deriving Repr, DecidableEq

/-- The MIME allow-list `supportedMimeTypes` of `handleImageChange`. -/
def supportedMimeTypes : List String :=
  ["image/png", "image/jpeg", "image/webp", "image/heic", "image/heif"]

/-- Embedding of `handleImageChange`: `file` is `event.target.files?.[0]`
(`none` when absent), `readResult` the settled outcome of the
`fileToDataUrl (file)` promise (`Except.error` a rejected read). The returned
flag records whether `fileToDataUrl` was invoked. A success of the read that
fails `parseDataUrl` lands in the same catch block as a failed read. -/
def handleImageChange (file : Option UploadFile) (readResult : Except Unit String)
    (s : AppState) : AppState × Bool :=
  match file with
  | none => (s, false)
  | some f =>
    if f.type ∉ supportedMimeTypes then
      ({ s with error := some "Unsupported file type. Please upload a PNG, JPEG, WEBP, HEIC, or HEIF file." },
       false)
    else
      let s1 := { s with error := none, generatedImage := none }
      match readResult with
      | .error _ =>
        ({ s1 with error := some "Failed to read the image file. Please try another one." }, true)
      | .ok dataUrl =>
        let s2 := { s1 with image := some dataUrl }
        match parseDataUrl dataUrl with
        | .ok info => ({ s2 with fileInfo := some info }, true)
        | .error _ =>
          ({ s2 with error := some "Failed to read the image file. Please try another one." }, true)

/-- The state updates of `handleGenerate` performed before the remote call:
`setIsLoading(true); setError(null); setGeneratedImage(null);`. -/
def generatePreState (s : AppState) : AppState :=
  { s with isLoading := true, error := none, generatedImage := none }

/-- The try/catch/finally tail of `handleGenerate` once the remote
`generateProfessionalHeadshot` promise settles: `remoteResult` is its outcome,
the error side carrying `err.message` (or the fixed unknown-error text when the
thrown value is not an `Error`); `aistudioPresent` is `!!window.aistudio`. -/
def handleGenerateSettle (aistudioPresent : Bool) (remoteResult : Except String String)
    (s : AppState) : AppState :=
  match remoteResult with
  | .ok result => { s with generatedImage := some result, isLoading := false }
  | .error msg =>
    if jsIncludes msg "Requested entity was not found" then
      let s1 := { s with error := some "Your session has expired or the API key is invalid. Please sign in again." }
      let s2 := if aistudioPresent then { s1 with isKeyReady := false } else s1
      { s2 with isLoading := false }
    else
      { s with error := some ("Generation failed: " ++ msg), isLoading := false }

/-- Embedding of `handleGenerate`: the guard `if (!fileInfo || !prompt)` fails
validation synchronously; otherwise the pre-call updates run and the settled
remote outcome is applied. The flag records whether the remote call was made. -/
def handleGenerate (aistudioPresent : Bool) (remoteResult : Except String String)
    (s : AppState) : AppState × Bool :=
  if s.fileInfo = none ∨ s.prompt = "" then
    ({ s with error := some "Please upload an image and select a style." }, false)
  else
    (handleGenerateSettle aistudioPresent remoteResult (generatePreState s), true)

/-- The startup credential check `checkApiKey`: either `window.aistudio` is
absent, or it is present and `hasSelectedApiKey()` resolves with a boolean or
rejects. -/
inductive KeyCheckEnv where
  | noAistudio
  | aistudio (hasKey : Except Unit Bool)
deriving Repr

/-- Embedding of the `checkApiKey` effect on the two gate flags: the `finally`
clause always ends the checking phase; a thrown check, like the standalone
case, sets the gate ready. -/
def checkApiKey (env : KeyCheckEnv) (s : AppState) : AppState :=
  match env with
  | .noAistudio => { s with isKeyReady := true, isCheckingKey := false }
  | .aistudio (.ok hasKey) => { s with isKeyReady := hasKey, isCheckingKey := false }
  | .aistudio (.error _) => { s with isKeyReady := true, isCheckingKey := false }

/-- The render guard: the main interface is reached only past the
`isCheckingKey` spinner and the `!isKeyReady` sign-in screen. -/
def mainInterfaceReachable (s : AppState) : Bool :=
  !s.isCheckingKey && s.isKeyReady

/-- A concrete post-upload state used by the witnesses below. -/
def sampleReadyState : AppState :=
  { image := some "data:image/png;base64,AAAAAAAAAAA="
    generatedImage := none
    activeStyleId := "professional"
    prompt := "A professional studio headshot."
    isLoading := false
    error := none
    fileInfo := some { mimeType := "image/png", base64Data := "AAAAAAAAAAA=" }
    isCheckingKey := false
    isKeyReady := true }

/-- A concrete pre-upload state (no image, no decoded file) for the witnesses. -/
def sampleNoImageState : AppState :=
  { sampleReadyState with image := none, fileInfo := none }

theorem splitOnChar_ne_nil (c : Char) (l : List Char) : splitOnChar c l ≠ [] := by
  cases l with
  | nil => simp [splitOnChar]
  | cons x xs =>
    simp only [splitOnChar]
    split <;> simp

theorem splitOnChar_nil (c : Char) : splitOnChar c [] = [[]] := rfl

theorem splitOnChar_cons (c x : Char) (xs : List Char) :
    splitOnChar c (x :: xs) =
      if x = c then [] :: splitOnChar c xs
      else (x :: (splitOnChar c xs).headD []) :: (splitOnChar c xs).tail := rfl

theorem splitOnChar_of_not_mem (c : Char) (l : List Char) (h : c ∉ l) :
    splitOnChar c l = [l] := by
  induction l with
  | nil => rfl
  | cons x xs ih =>
    simp only [List.mem_cons, not_or] at h
    rw [splitOnChar_cons, if_neg (fun hx => h.1 hx.symm), ih h.2]
    rfl

theorem splitOnChar_append (c : Char) (l₁ l₂ : List Char) (h : c ∉ l₁) :
    splitOnChar c (l₁ ++ c :: l₂) = l₁ :: splitOnChar c l₂ := by
  induction l₁ with
  | nil => simp [splitOnChar_cons]
  | cons x xs ih =>
    simp only [List.mem_cons, not_or] at h
    rw [List.cons_append, splitOnChar_cons, if_neg (fun hx => h.1 hx.symm),
      ih h.2]
    rfl

theorem splitOnChar_length (c : Char) (l : List Char) :
    (splitOnChar c l).length = l.count c + 1 := by
  induction l with
  | nil => rfl
  | cons x xs ih =>
    rw [splitOnChar_cons]
    obtain ⟨h, t, ht⟩ : ∃ h t, splitOnChar c xs = h :: t := by
      cases hs : splitOnChar c xs with
      | nil => exact absurd hs (splitOnChar_ne_nil c xs)
      | cons h t => exact ⟨h, t, rfl⟩
    by_cases hx : x = c
    · subst hx
      rw [if_pos rfl, List.length_cons, ih, List.count_cons_self]
    · rw [if_neg hx, ht]
      rw [ht, List.length_cons] at ih
      simp only [List.tail_cons, List.length_cons, List.count_cons, beq_iff_eq,
        hx, if_false]
      omega

theorem jsSplit_length (sep : Char) (s : String) :
    (jsSplit sep s).length = s.data.count sep + 1 := by
  rw [jsSplit, List.length_map, splitOnChar_length]

theorem string_data_append (s t : String) : (s ++ t).data = s.data ++ t.data := rfl

theorem string_mk_data (s : String) : String.mk s.data = s := rfl

theorem string_data_mk (l : List Char) : (String.mk l).data = l := rfl

theorem string_mk_ne_empty {l : List Char} (h : l ≠ []) : String.mk l ≠ "" := by
  intro hc
  exact h (by simpa using congrArg String.data hc)

theorem list_get1_map {α β : Type} (f : α → β) (l : List α) :
    (l.map f).get? 1 = (l.get? 1).map f := by
  cases l with
  | nil => rfl
  | cons a t => cases t <;> rfl

/-- Claim C1: for every valid data URL of the form `data:<mime>;base64,<payload>`
containing exactly one comma (the mime free of the colon, semicolon and comma
characters, the payload free of the comma), `parseDataUrl` returns exactly
`{ mimeType := mime, base64Data := payload }`. -/
theorem parseDataUrl_roundtrip (mime payload : String)
    (h1 : ':' ∉ mime.data) (h2 : ';' ∉ mime.data)
    (h3 : ',' ∉ mime.data) (h4 : ',' ∉ payload.data) :
    parseDataUrl ("data:" ++ mime ++ ";base64," ++ payload) =
      .ok { mimeType := mime, base64Data := payload } := by
  have hdata : ("data:" ++ mime ++ ";base64," ++ payload).data
      = (['d', 'a', 't', 'a'] ++ ':' ::
          (mime.data ++ [';', 'b', 'a', 's', 'e', '6', '4'])) ++ ',' :: payload.data := by
    rw [string_data_append, string_data_append, string_data_append]
    have hda : ("data:" : String).data = ['d', 'a', 't', 'a', ':'] := rfl
    have hb : (";base64," : String).data = [';', 'b', 'a', 's', 'e', '6', '4', ','] := rfl
    rw [hda, hb]
    simp only [List.append_assoc, List.cons_append, List.nil_append]
  have hnc : ',' ∉ (['d', 'a', 't', 'a'] ++ ':' ::
      (mime.data ++ [';', 'b', 'a', 's', 'e', '6', '4'])) := by
    intro hmem
    rcases List.mem_append.mp hmem with hm | hm
    · exact absurd hm (by decide)
    · rcases List.mem_cons.mp hm with hm | hm
      · exact absurd hm (by decide)
      · rcases List.mem_append.mp hm with hm | hm
        · exact h3 hm
        · exact absurd hm (by decide)
  have hs1 : splitOnChar ',' ("data:" ++ mime ++ ";base64," ++ payload).data
      = [['d', 'a', 't', 'a'] ++ ':' ::
          (mime.data ++ [';', 'b', 'a', 's', 'e', '6', '4']), payload.data] := by
    rw [hdata, splitOnChar_append _ _ _ hnc, splitOnChar_of_not_mem _ _ h4]
  have hs2 : splitOnChar ':' (['d', 'a', 't', 'a'] ++ ':' ::
      (mime.data ++ [';', 'b', 'a', 's', 'e', '6', '4']))
      = [['d', 'a', 't', 'a'], mime.data ++ [';', 'b', 'a', 's', 'e', '6', '4']] := by
    rw [splitOnChar_append _ _ _ (by decide), splitOnChar_of_not_mem]
    intro hmem
    rcases List.mem_append.mp hmem with hm | hm
    · exact h1 hm
    · exact absurd hm (by decide)
  have hs3 : splitOnChar ';' (mime.data ++ [';', 'b', 'a', 's', 'e', '6', '4'])
      = mime.data :: splitOnChar ';' ['b', 'a', 's', 'e', '6', '4'] :=
    splitOnChar_append _ _ _ h2
  have hmetane : String.mk (mime.data ++ [';', 'b', 'a', 's', 'e', '6', '4']) ≠ "" := by
    apply string_mk_ne_empty
    simp
  simp only [parseDataUrl, jsSplit, hs1, List.map_cons, List.map_nil, string_mk_data,
    List.length_cons, List.length_nil, List.headD_cons, string_data_mk, hs2,
    List.get?_cons_succ, List.get?_cons_zero, if_neg (not_not_intro rfl), hs3,
    List.getD, Option.getD_some]
  rw [if_neg hmetane]

/-- Witness for Claim C1 at the spec's example: `photo.png` as
`data:image/png;base64,AAAAAAAAAAA=`. -/
theorem parseDataUrl_roundtrip_witness :
    (':' ∉ ("image/png" : String).data ∧ ';' ∉ ("image/png" : String).data ∧
     ',' ∉ ("image/png" : String).data ∧ ',' ∉ ("AAAAAAAAAAA=" : String).data) ∧
    parseDataUrl ("data:" ++ "image/png" ++ ";base64," ++ "AAAAAAAAAAA=") =
      .ok { mimeType := "image/png", base64Data := "AAAAAAAAAAA=" } :=
  ⟨⟨by decide, by decide, by decide, by decide⟩,
   parseDataUrl_roundtrip "image/png" "AAAAAAAAAAA="
     (by decide) (by decide) (by decide) (by decide)⟩

/-- Claim C2: `parseDataUrl` fails (throws) on every input whose comma count is
not exactly one, and on every input whose metadata segment (the part before the
comma) is empty, i.e. whose character list starts with a comma; being an
`Except.error`, no partial `{ mimeType, base64Data }` value is produced. -/
theorem parseDataUrl_error_cases (s : String)
    (h : s.data.count ',' ≠ 1 ∨ ∃ t, s.data = ',' :: t) :
    ∃ e, parseDataUrl s = .error e := by
  by_cases hlen : (jsSplit ',' s).length = 2
  · have hcount : s.data.count ',' = 1 := by
      have := jsSplit_length ',' s
      omega
    rcases h with h | ⟨t, ht⟩
    · exact absurd hcount h
    · refine ⟨"Invalid Data URL: Missing metadata.", ?_⟩
      have hsp : splitOnChar ',' s.data = [] :: splitOnChar ',' t := by
        rw [ht, splitOnChar_cons, if_pos rfl]
      simp only [parseDataUrl, jsSplit, hsp, List.map_cons, List.headD_cons,
        string_data_mk, splitOnChar_nil, List.map_nil, List.get?_cons_zero]
      rw [if_neg (not_not_intro ?_)]
      · rfl
      · simpa only [jsSplit, hsp, List.map_cons, List.length_cons] using hlen
  · exact ⟨"Invalid Data URL format.", by simp only [parseDataUrl]; rw [if_pos hlen]⟩

/-- Witness for Claim C2 at the comma-free input `no-comma-here`. -/
theorem parseDataUrl_error_cases_witness :
    (("no-comma-here" : String).data.count ',' ≠ 1 ∨
      ∃ t, ("no-comma-here" : String).data = ',' :: t) ∧
    ∃ e, parseDataUrl "no-comma-here" = .error e :=
  ⟨Or.inl (by decide), parseDataUrl_error_cases "no-comma-here" (Or.inl (by decide))⟩

/-- Counterexample to Claim C3 as stated: the input `data:image/png,AAA` has a
metadata segment `data:image/png` with no semicolon-delimited MIME type, i.e.
malformed under the spec's contract, yet `parseDataUrl` succeeds on it instead
of failing with a format error. -/
theorem parseDataUrl_contract_counterexample :
    specMetadataWellFormed "data:image/png" = false ∧
    parseDataUrl "data:image/png,AAA" =
      .ok { mimeType := "image/png", base64Data := "AAA" } :=
  ⟨by rfl, by rfl⟩

/-- Claim C3 (amended): `parseDataUrl` succeeds exactly on the strings with one
comma whose metadata segment has a nonempty field between its first and second
colon; no semicolon is required (the MIME type is the prefix of that field up
to the first semicolon, possibly the whole field), and the scheme before the
first colon is not inspected. -/
theorem parseDataUrl_ok_iff (s : String) :
    (∃ r, parseDataUrl s = .ok r) ↔
      (s.data.count ',' = 1 ∧
        ∃ m, (splitOnChar ':' ((splitOnChar ',' s.data).headD [])).get? 1 = some m ∧
          m ≠ []) := by
  obtain ⟨a, t, hL⟩ : ∃ a t, splitOnChar ',' s.data = a :: t := by
    cases hsp : splitOnChar ',' s.data with
    | nil => exact absurd hsp (splitOnChar_ne_nil _ _)
    | cons a t => exact ⟨a, t, rfl⟩
  have hlen : (jsSplit ',' s).length = s.data.count ',' + 1 := jsSplit_length ',' s
  constructor
  · rintro ⟨r, hr⟩
    simp only [parseDataUrl, jsSplit, hL, List.map_cons, List.headD_cons,
      string_data_mk] at hr
    by_cases h2 : (String.mk a :: List.map String.mk t).length = 2
    · rw [if_neg (not_not_intro h2)] at hr
      refine ⟨?_, ?_⟩
      · simp only [jsSplit, hL, List.map_cons, List.length_cons] at hlen
        simp only [List.length_cons] at h2
        omega
      · rw [list_get1_map] at hr
        cases hm : (splitOnChar ':' a).get? 1 with
        | none =>
          rw [hm] at hr
          simp at hr
        | some m =>
          rw [hm] at hr
          simp only [Option.map_some'] at hr
          rw [hL, List.headD_cons]
          refine ⟨m, hm, ?_⟩
          intro hnil
          rw [hnil] at hr
          rw [if_pos rfl] at hr
          exact Except.noConfusion hr
    · rw [if_pos h2] at hr
      exact Except.noConfusion hr
  · rintro ⟨hcount, m, hm, hmne⟩
    rw [hL, List.headD_cons] at hm
    have h2 : (jsSplit ',' s).length = 2 := by rw [hlen, hcount]
    simp only [jsSplit, hL, List.map_cons] at h2
    simp only [parseDataUrl, jsSplit, hL, List.map_cons, List.headD_cons,
      string_data_mk, list_get1_map, hm, Option.map_some',
      if_neg (not_not_intro h2)]
    rw [if_neg (string_mk_ne_empty hmne)]
    exact ⟨_, rfl⟩

/-- Claim C4: when no decoded image is present or the prompt is empty,
`handleGenerate` only sets the validation error message: the remote call is
not made (flag `false`) and the state is otherwise untouched — in particular
`isLoading` keeps its value, so the loading state is never entered. -/
theorem handleGenerate_validation_guard (aistudioPresent : Bool)
    (remoteResult : Except String String) (s : AppState)
    (h : s.fileInfo = none ∨ s.prompt = "") :
    handleGenerate aistudioPresent remoteResult s =
      ({ s with error := some "Please upload an image and select a style." }, false) := by
  simp only [handleGenerate, if_pos h]

/-- Witness for Claim C4 at a concrete state with no uploaded image. -/
theorem handleGenerate_validation_guard_witness :
    (sampleNoImageState.fileInfo = none ∨ sampleNoImageState.prompt = "") ∧
    handleGenerate false (.ok "x") sampleNoImageState =
      ({ sampleNoImageState with error := some "Please upload an image and select a style." },
       false) :=
  ⟨Or.inl rfl,
   handleGenerate_validation_guard false (.ok "x") sampleNoImageState (Or.inl rfl)⟩

/-- Counterexample to Claim C5 as stated: with `window.aistudio` absent
(`aistudioPresent = false`), a failed call whose message contains the exact
phrase `Requested entity was not found` leaves `isKeyReady` at `true` — the
gate is NOT reset to NotReady, because the code guards the reset with
`if (window.aistudio)`. -/
theorem handleGenerate_gate_reset_counterexample :
    jsIncludes "Requested entity was not found." "Requested entity was not found" = true ∧
    ((handleGenerate false (.error "Requested entity was not found.") sampleReadyState).1).isKeyReady
      = true := by
  constructor
  · decide
  · rfl

/-- Claim C5 (amended): on a failed call whose message contains the phrase,
the session-expired message is shown, and the gate is reset to NotReady only
when the `window.aistudio` host capability is present — when it is absent the
gate is unchanged; on any other failure message the gate is unchanged and the
generic generation-failed message carrying the underlying text is shown. -/
theorem handleGenerate_failure_classification (aistudioPresent : Bool) (msg : String)
    (s : AppState) (h : ¬(s.fileInfo = none ∨ s.prompt = "")) :
    (jsIncludes msg "Requested entity was not found" = true →
       ((handleGenerate aistudioPresent (.error msg) s).1).error =
         some "Your session has expired or the API key is invalid. Please sign in again." ∧
       (aistudioPresent = true →
         ((handleGenerate aistudioPresent (.error msg) s).1).isKeyReady = false) ∧
       (aistudioPresent = false →
         ((handleGenerate aistudioPresent (.error msg) s).1).isKeyReady = s.isKeyReady)) ∧
    (jsIncludes msg "Requested entity was not found" = false →
       ((handleGenerate aistudioPresent (.error msg) s).1).error =
         some ("Generation failed: " ++ msg) ∧
       ((handleGenerate aistudioPresent (.error msg) s).1).isKeyReady = s.isKeyReady) := by
  constructor
  · intro hj
    cases aistudioPresent <;>
      simp [handleGenerate, if_neg h, handleGenerateSettle, generatePreState, hj]
  · intro hj
    simp [handleGenerate, if_neg h, handleGenerateSettle, generatePreState, hj]

/-- Witness for Claim C5 (amended) at a failure message without the phrase. -/
theorem handleGenerate_failure_classification_witness :
    ¬(sampleReadyState.fileInfo = none ∨ sampleReadyState.prompt = "") ∧
    ((jsIncludes "boom" "Requested entity was not found" = true →
        ((handleGenerate true (.error "boom") sampleReadyState).1).error =
          some "Your session has expired or the API key is invalid. Please sign in again." ∧
        ((true : Bool) = true →
          ((handleGenerate true (.error "boom") sampleReadyState).1).isKeyReady = false) ∧
        ((true : Bool) = false →
          ((handleGenerate true (.error "boom") sampleReadyState).1).isKeyReady =
            sampleReadyState.isKeyReady)) ∧
     (jsIncludes "boom" "Requested entity was not found" = false →
        ((handleGenerate true (.error "boom") sampleReadyState).1).error =
          some ("Generation failed: " ++ "boom") ∧
        ((handleGenerate true (.error "boom") sampleReadyState).1).isKeyReady =
          sampleReadyState.isKeyReady)) :=
  ⟨by decide, handleGenerate_failure_classification true "boom" sampleReadyState (by decide)⟩

/-- Claim C6: an upload whose MIME type is outside the allow-list is rejected
with the user-visible message, the encoder is never invoked (flag `false`),
and nothing else happens to the state. -/
theorem handleImageChange_rejects_unsupported (f : UploadFile)
    (readResult : Except Unit String) (s : AppState)
    (h : f.type ∉ supportedMimeTypes) :
    handleImageChange (some f) readResult s =
      ({ s with error := some "Unsupported file type. Please upload a PNG, JPEG, WEBP, HEIC, or HEIF file." },
       false) := by
  simp only [handleImageChange, if_pos h]

/-- Witness for Claim C6 at a GIF upload. -/
theorem handleImageChange_rejects_unsupported_witness :
    ({ type := "image/gif" } : UploadFile).type ∉ supportedMimeTypes ∧
    handleImageChange (some { type := "image/gif" }) (.ok "data:image/gif;base64,QQ==")
        sampleNoImageState =
      ({ sampleNoImageState with
          error := some "Unsupported file type. Please upload a PNG, JPEG, WEBP, HEIC, or HEIF file." },
       false) :=
  ⟨by decide,
   handleImageChange_rejects_unsupported { type := "image/gif" }
     (.ok "data:image/gif;base64,QQ==") sampleNoImageState (by decide)⟩

/-- Claim C7: a successful generation call stores the returned (nonempty)
image as the generated result, which `currentImage` then displays, while the
uploaded image and its decoded `fileInfo` are unchanged. -/
theorem handleGenerate_success (aistudioPresent : Bool) (result : String) (s : AppState)
    (h : ¬(s.fileInfo = none ∨ s.prompt = "")) (hr : result ≠ "") :
    ((handleGenerate aistudioPresent (.ok result) s).1).generatedImage = some result ∧
    ((handleGenerate aistudioPresent (.ok result) s).1).image = s.image ∧
    ((handleGenerate aistudioPresent (.ok result) s).1).fileInfo = s.fileInfo ∧
    currentImage ((handleGenerate aistudioPresent (.ok result) s).1) = some result := by
  simp [handleGenerate, if_neg h, handleGenerateSettle, generatePreState,
    currentImage, jsOrString, hr]

/-- Witness for Claim C7 at a concrete successful call. -/
theorem handleGenerate_success_witness :
    ¬(sampleReadyState.fileInfo = none ∨ sampleReadyState.prompt = "") ∧
    ("data:image/png;base64,QUJD" : String) ≠ "" ∧
    ((handleGenerate false (.ok "data:image/png;base64,QUJD") sampleReadyState).1).generatedImage =
      some "data:image/png;base64,QUJD" ∧
    ((handleGenerate false (.ok "data:image/png;base64,QUJD") sampleReadyState).1).image =
      sampleReadyState.image ∧
    ((handleGenerate false (.ok "data:image/png;base64,QUJD") sampleReadyState).1).fileInfo =
      sampleReadyState.fileInfo ∧
    currentImage ((handleGenerate false (.ok "data:image/png;base64,QUJD") sampleReadyState).1) =
      some "data:image/png;base64,QUJD" := by
  refine ⟨by decide, by decide, ?_⟩
  have := handleGenerate_success false "data:image/png;base64,QUJD" sampleReadyState
    (by decide) (by decide)
  exact ⟨this.1, this.2.1, this.2.2.1, this.2.2.2⟩

/-- Claim C8: if the startup credential check throws, the gate still opens
(`isKeyReady = true`) and the main interface is reachable; and in every
outcome of the check, `isCheckingKey` ends `false`. -/
theorem checkApiKey_error_opens_gate (s : AppState) :
    (∀ e, (checkApiKey (.aistudio (.error e)) s).isKeyReady = true ∧
      mainInterfaceReachable (checkApiKey (.aistudio (.error e)) s) = true) ∧
    (∀ env, (checkApiKey env s).isCheckingKey = false) := by
  refine ⟨fun e => ⟨rfl, rfl⟩, fun env => ?_⟩
  cases env with
  | noAistudio => rfl
  | aistudio r => cases r <;> rfl

/-- Claim C9: for an upload rejected for its MIME type, every state field
except the error message is unchanged: image, generated image, decoded file
info, prompt and active style all keep their values. -/
theorem handleImageChange_unsupported_frame (f : UploadFile)
    (readResult : Except Unit String) (s : AppState)
    (h : f.type ∉ supportedMimeTypes) :
    ((handleImageChange (some f) readResult s).1).image = s.image ∧
    ((handleImageChange (some f) readResult s).1).generatedImage = s.generatedImage ∧
    ((handleImageChange (some f) readResult s).1).fileInfo = s.fileInfo ∧
    ((handleImageChange (some f) readResult s).1).prompt = s.prompt ∧
    ((handleImageChange (some f) readResult s).1).activeStyleId = s.activeStyleId ∧
    ((handleImageChange (some f) readResult s).1).isLoading = s.isLoading ∧
    ((handleImageChange (some f) readResult s).1).error =
      some "Unsupported file type. Please upload a PNG, JPEG, WEBP, HEIC, or HEIF file." := by
  simp [handleImageChange, if_pos h]

/-- Witness for Claim C9 at a GIF upload over a state with a prior result. -/
theorem handleImageChange_unsupported_frame_witness :
    ({ type := "image/gif" } : UploadFile).type ∉ supportedMimeTypes ∧
    ((handleImageChange (some { type := "image/gif" }) (.ok "d") sampleReadyState).1).image =
      sampleReadyState.image ∧
    ((handleImageChange (some { type := "image/gif" }) (.ok "d") sampleReadyState).1).generatedImage =
      sampleReadyState.generatedImage ∧
    ((handleImageChange (some { type := "image/gif" }) (.ok "d") sampleReadyState).1).fileInfo =
      sampleReadyState.fileInfo ∧
    ((handleImageChange (some { type := "image/gif" }) (.ok "d") sampleReadyState).1).prompt =
      sampleReadyState.prompt ∧
    ((handleImageChange (some { type := "image/gif" }) (.ok "d") sampleReadyState).1).activeStyleId =
      sampleReadyState.activeStyleId ∧
    ((handleImageChange (some { type := "image/gif" }) (.ok "d") sampleReadyState).1).isLoading =
      sampleReadyState.isLoading ∧
    ((handleImageChange (some { type := "image/gif" }) (.ok "d") sampleReadyState).1).error =
      some "Unsupported file type. Please upload a PNG, JPEG, WEBP, HEIC, or HEIF file." :=
  ⟨by decide,
   handleImageChange_unsupported_frame { type := "image/gif" } (.ok "d") sampleReadyState
     (by decide)⟩

/-- Claim C10: a generation request that passes validation starts from the
pre-call state, which has the previous generated image and error cleared; the
call is then made, and on failure the generated image stays cleared, so the
displayed image falls back to the original upload. -/
theorem handleGenerate_failure_falls_back (aistudioPresent : Bool)
    (remoteResult : Except String String) (msg : String) (s : AppState)
    (h : ¬(s.fileInfo = none ∨ s.prompt = "")) :
    (generatePreState s).generatedImage = none ∧
    (generatePreState s).error = none ∧
    handleGenerate aistudioPresent remoteResult s =
      (handleGenerateSettle aistudioPresent remoteResult (generatePreState s), true) ∧
    ((handleGenerate aistudioPresent (.error msg) s).1).generatedImage = none ∧
    currentImage ((handleGenerate aistudioPresent (.error msg) s).1) = s.image := by
  refine ⟨rfl, rfl, by simp only [handleGenerate, if_neg h], ?_, ?_⟩ <;>
    cases hj : jsIncludes msg "Requested entity was not found" <;>
      cases aistudioPresent <;>
        simp [handleGenerate, if_neg h, handleGenerateSettle, generatePreState, hj,
          currentImage, jsOrString]

/-- Witness for Claim C10 at a concrete failing call over a state holding a
previously generated image. -/
theorem handleGenerate_failure_falls_back_witness :
    ¬(({ sampleReadyState with generatedImage := some "old" } : AppState).fileInfo = none ∨
       ({ sampleReadyState with generatedImage := some "old" } : AppState).prompt = "") ∧
    (generatePreState { sampleReadyState with generatedImage := some "old" }).generatedImage = none ∧
    (generatePreState { sampleReadyState with generatedImage := some "old" }).error = none ∧
    handleGenerate false (.error "boom") { sampleReadyState with generatedImage := some "old" } =
      (handleGenerateSettle false (.error "boom")
        (generatePreState { sampleReadyState with generatedImage := some "old" }), true) ∧
    ((handleGenerate false (.error "boom")
        { sampleReadyState with generatedImage := some "old" }).1).generatedImage = none ∧
    currentImage ((handleGenerate false (.error "boom")
        { sampleReadyState with generatedImage := some "old" }).1) =
      ({ sampleReadyState with generatedImage := some "old" } : AppState).image :=
  ⟨by decide,
   handleGenerate_failure_falls_back false (.error "boom") "boom"
     { sampleReadyState with generatedImage := some "old" } (by decide)⟩
